import Mathlib

/-!
Verification of the scribo essay-grading backend's consensus/synthesis
orchestration core, as a shallow embedding in Lean 4.

Source files embedded (from `backend/`):
- `ai_service.py`    : sliding-window rate limiter, score extraction,
                       single-model correction service with retry/fallback;
- `deep_analysis.py` : consensus engine (`_calculate_consensus_metrics`);
- `enhanced_deep_analysis.py` : two-phase orchestrator (Phase-1 tally,
                       Phase-2 synthesis guard, reliability from success count).

Modelling conventions:
- Python floats are modelled as exact numbers (`ℚ` where all arithmetic is
  rational, `ℝ` where the code takes square roots via `statistics.stdev`).
  For every comparison performed on the claims' inputs the float and exact
  verdicts coincide (noted where relevant).
- Wall-clock bookkeeping fields (`processing_time`, `timestamp`) and the
  md5 content hashes are omitted: they carry no logic.
- Effectful collaborators (cache, rate-limiter clock, model APIs) are passed
  explicitly: the current time is an argument, the cache answer is an
  `Option`, and a model invocation is an oracle `String → ℕ → Except String String`
  giving each (model, attempt)'s outcome, mirroring how the tests stub them.
- Python exceptions are `Except` errors; "returns without raising" is `.ok`.
-/

namespace Scribo

/-! ## Rate limiter (`ai_service.py`, class `RateLimiter`) -/

/-- `RateLimitConfig` from `ai_service.py` (defaults: 1 request / 60 s window). -/
structure RateLimitConfig where
  requests_per_minute : ℕ := 1
  burst_limit : ℕ := 1
  window_size : ℚ := 60

/-- Python's `min` over a non-empty list (`min(self.requests[user_id])`);
`0` on the empty list, which the limiter never queries. -/
def listMin : List ℚ → ℚ
  | [] => 0
  | x :: xs => xs.foldl min x

/-- The per-key timestamp table `self.requests`, as a total function with
default `[]` (a missing dict key and an empty list are indistinguishable to
`is_allowed`). -/
def updateRequests (reqs : String → List ℚ) (uid : String) (l : List ℚ) :
    String → List ℚ :=
  fun k => if k = uid then l else reqs k

/-- The pruning step of `RateLimiter.is_allowed`: keep timestamps strictly
newer than `now - window_size`. -/
def prunedRequests (cfg : RateLimitConfig) (reqs : String → List ℚ)
    (uid : String) (now : ℚ) : List ℚ :=
  (reqs uid).filter (fun t => decide (now - cfg.window_size < t))

/-- `RateLimiter.is_allowed(user_id)` at time `now`: prune, then either record
`now` and allow, or deny with the wait until the oldest surviving request
leaves the window. Returns ((allowed, wait), new table). -/
def isAllowed (cfg : RateLimitConfig) (reqs : String → List ℚ)
    (uid : String) (now : ℚ) : (Bool × Option ℚ) × (String → List ℚ) :=
  let pruned := prunedRequests cfg reqs uid now
  if pruned.length < cfg.requests_per_minute then
    ((true, none), updateRequests reqs uid (pruned ++ [now]))
  else
    ((false, some (max 0 (listMin pruned + cfg.window_size - now))),
      updateRequests reqs uid pruned)

theorem foldl_min_mem (xs : List ℚ) : ∀ (x : ℚ), xs.foldl min x ∈ x :: xs := by
  induction xs with
  | nil => intro x; simp
  | cons y ys ih =>
    intro x
    simp only [List.foldl]
    have hmem := ih (min x y)
    rcases List.mem_cons.mp hmem with h1 | h1
    · rcases min_choice x y with h | h
      · rw [h1, h]; exact List.mem_cons_self _ _
      · rw [h1, h]; exact List.mem_cons_of_mem _ (List.mem_cons_self _ _)
    · exact List.mem_cons_of_mem _ (List.mem_cons_of_mem _ h1)

theorem foldl_min_le (xs : List ℚ) : ∀ (x : ℚ), ∀ y ∈ x :: xs, xs.foldl min x ≤ y := by
  induction xs with
  | nil =>
    intro x y hy
    rw [List.mem_singleton] at hy
    simp [hy]
  | cons z zs ih =>
    intro x y hy
    simp only [List.foldl]
    rcases List.mem_cons.mp hy with h1 | hy'
    · rw [h1]
      exact le_trans (ih (min x z) _ (List.mem_cons_self _ _)) (min_le_left _ _)
    rcases List.mem_cons.mp hy' with h2 | hy''
    · rw [h2]
      exact le_trans (ih (min x z) _ (List.mem_cons_self _ _)) (min_le_right _ _)
    · exact ih (min x z) y (List.mem_cons_of_mem _ hy'')

theorem listMin_cons_mem (x : ℚ) (xs : List ℚ) : listMin (x :: xs) ∈ x :: xs :=
  foldl_min_mem xs x

theorem prunedRequests_gt (cfg : RateLimitConfig) (reqs : String → List ℚ)
    (uid : String) (now : ℚ) :
    ∀ t ∈ prunedRequests cfg reqs uid now, now - cfg.window_size < t := by
  intro t ht
  have := List.of_mem_filter ht
  simpa using this

theorem c9_step1_eq :
    isAllowed ⟨1, 1, 60⟩ (fun _ => []) "u" 0 =
      ((true, none), updateRequests (fun _ => []) "u" [0]) := by
  simp [isAllowed, prunedRequests]

theorem c9_step2_eq :
    isAllowed ⟨1, 1, 60⟩ (updateRequests (fun _ => []) "u" [0]) "u" 1 =
      ((false, some 59),
        updateRequests (updateRequests (fun _ => []) "u" [0]) "u" [0]) := by
  have hfil : prunedRequests ⟨1, 1, 60⟩ (updateRequests (fun _ => []) "u" [0])
      "u" 1 = [0] := by
    simp only [prunedRequests, updateRequests]
    norm_num [List.filter_cons]
  simp only [isAllowed, hfil]
  norm_num [listMin]

theorem c9_step3_eq :
    (isAllowed ⟨1, 1, 60⟩
      (updateRequests (updateRequests (fun _ => []) "u" [0]) "u" [0])
      "u" 61).1 = (true, none) := by
  have hfil : prunedRequests ⟨1, 1, 60⟩
      (updateRequests (updateRequests (fun _ => []) "u" [0]) "u" [0])
      "u" 61 = [] := by
    simp only [prunedRequests, updateRequests]
    norm_num [List.filter_cons]
  simp [isAllowed, hfil]

/-- C9: `is_allowed` prunes expired timestamps, allows-and-records while the
count is below the limit, and otherwise denies with wait
`oldest + window_size - now` (strictly positive).  Conjoined: the concrete
max_requests=1/window=60s scenario — two checks 1 s apart give
`(true, none)` then `(false, wait > 0)`, and a third after the window has
elapsed gives `(true, none)` again. -/
theorem rate_limiter_sliding_window_spec (cfg : RateLimitConfig)
    (reqs : String → List ℚ) (uid : String) (now : ℚ)
    (hrpm : 1 ≤ cfg.requests_per_minute) :
    ((prunedRequests cfg reqs uid now).length < cfg.requests_per_minute →
      isAllowed cfg reqs uid now =
        ((true, none),
          updateRequests reqs uid (prunedRequests cfg reqs uid now ++ [now]))) ∧
    (cfg.requests_per_minute ≤ (prunedRequests cfg reqs uid now).length →
      isAllowed cfg reqs uid now =
        ((false, some (listMin (prunedRequests cfg reqs uid now) +
            cfg.window_size - now)),
          updateRequests reqs uid (prunedRequests cfg reqs uid now)) ∧
      0 < listMin (prunedRequests cfg reqs uid now) + cfg.window_size - now) ∧
    ((isAllowed ⟨1, 1, 60⟩ (fun _ => []) "u" 0).1 = (true, none) ∧
      ((isAllowed ⟨1, 1, 60⟩ ((isAllowed ⟨1, 1, 60⟩ (fun _ => []) "u" 0).2)
        "u" 1).1.1 = false ∧
       ∃ w, (isAllowed ⟨1, 1, 60⟩ ((isAllowed ⟨1, 1, 60⟩ (fun _ => []) "u" 0).2)
        "u" 1).1.2 = some w ∧ 0 < w) ∧
      (isAllowed ⟨1, 1, 60⟩
        ((isAllowed ⟨1, 1, 60⟩ ((isAllowed ⟨1, 1, 60⟩ (fun _ => []) "u" 0).2)
          "u" 1).2) "u" 61).1 = (true, none)) := by
  refine ⟨?_, ?_, ?_⟩
  · intro h
    simp only [isAllowed, if_pos h]
  · intro h
    have hlt : ¬ (prunedRequests cfg reqs uid now).length < cfg.requests_per_minute :=
      not_lt.mpr h
    have hne : prunedRequests cfg reqs uid now ≠ [] := by
      intro hnil
      rw [hnil] at h
      simp at h
      omega
    obtain ⟨x, xs, hx⟩ := List.exists_cons_of_ne_nil hne
    have hmem : listMin (prunedRequests cfg reqs uid now) ∈
        prunedRequests cfg reqs uid now := by
      rw [hx]; exact listMin_cons_mem x xs
    have hgt := prunedRequests_gt cfg reqs uid now _ hmem
    have hpos : 0 < listMin (prunedRequests cfg reqs uid now) +
        cfg.window_size - now := by linarith
    constructor
    · simp only [isAllowed, if_neg hlt]
      have : max 0 (listMin (prunedRequests cfg reqs uid now) +
          cfg.window_size - now) =
          listMin (prunedRequests cfg reqs uid now) + cfg.window_size - now :=
        max_eq_right (le_of_lt hpos)
      rw [this]
    · exact hpos
  · rw [c9_step1_eq]
    refine ⟨rfl, ⟨?_, ?_⟩, ?_⟩
    · rw [c9_step2_eq]
    · exact ⟨59, by rw [c9_step2_eq], by norm_num⟩
    · rw [c9_step2_eq]
      exact c9_step3_eq

/-- Closed instance of the rate-limiter theorem at a concrete input
(empty table, default config, time 0): the first check allows and records
the timestamp. -/
theorem rate_limiter_sliding_window_spec_witness :
    isAllowed ⟨1, 1, 60⟩ (fun _ => []) "u" 0 =
      ((true, none), updateRequests (fun _ => []) "u"
        (prunedRequests ⟨1, 1, 60⟩ (fun _ => []) "u" 0 ++ [0])) :=
  (rate_limiter_sliding_window_spec ⟨1, 1, 60⟩ (fun _ => []) "u" 0
    (by norm_num)).1 (by simp [prunedRequests])

/-! ## Score extraction (`ai_service.py`, `AIService._extract_score`)

The regex patterns of `_extract_score` are embedded as explicit scanners over
the list of characters: `re.search` is a left-to-right scan for the first
position where the whole pattern matches, `re.findall` additionally skips
past each match. `re.IGNORECASE` is modelled by folding the case of exactly
the letters the patterns use (ASCII plus `Ç`/`Ã`); `\s` is modelled as ASCII
whitespace and `\d` as ASCII digits. -/

/-- Case folding used by the caseless matcher: ASCII lowering plus the two
accented uppercase letters occurring in the patterns. -/
def pyLower (c : Char) : Char :=
  if c = 'Ç' then 'ç' else if c = 'Ã' then 'ã' else c.toLower

/-- The characters matched by the patterns' `\s`. -/
def isPySpace (c : Char) : Bool :=
  c = ' ' || c = '\t' || c = '\n' || c = '\x0b' || c = '\x0c' || c = '\r'

/-- Does `lit` match case-insensitively at the head of `t`? -/
def matchesCaselessAt : List Char → List Char → Bool
  | [], _ => true
  | _ :: _, [] => false
  | p :: ps, c :: cs => (pyLower c = pyLower p) && matchesCaselessAt ps cs

/-- The five qualitative labels, in the alternation order of the regex
`(Insuficiente|Regular|Bom|Muito Bom|Excelente)`. -/
def qualityLabels : List (List Char) :=
  ["Insuficiente".data, "Regular".data, "Bom".data, "Muito Bom".data,
   "Excelente".data]

/-- Match the label alternation at the head of `t`; the capture is the text
slice in its original case, paired with its length. -/
def matchQualityLabel (t : List Char) : Option (String × ℕ) :=
  match qualityLabels.find? (fun lab => matchesCaselessAt lab t) with
  | some lab => some (String.mk (t.take lab.length), lab.length)
  | none => none

/-- Match `lit` + `\s*` + label alternation at the head of `t`; returns the
captured label and the total number of characters consumed. -/
def tryQualAt (lit t : List Char) : Option (String × ℕ) :=
  if matchesCaselessAt lit t then
    match matchQualityLabel ((t.drop lit.length).dropWhile isPySpace) with
    | some (cap, n) =>
        some (cap,
          lit.length + ((t.drop lit.length).takeWhile isPySpace).length + n)
    | none => none
  else none

/-- `re.search` for `lit` + `\s*` + label: first position (left to right)
where the whole pattern matches; returns the captured label. -/
def searchQual (lit : List Char) : List Char → Option String
  | [] => (tryQualAt lit []).map Prod.fst
  | c :: rest =>
    match tryQualAt lit (c :: rest) with
    | some (cap, _) => some cap
    | none => searchQual lit rest

/-- The literal of the individual-assessment pattern `AVALIAÇÃO:\s*(...)`. -/
def avaliacaoLit : List Char := "AVALIAÇÃO:".data

/-- The literal of the pattern `AVALIAÇÃO GERAL:\s*(...)`. -/
def avaliacaoGeralLit : List Char := "AVALIAÇÃO GERAL:".data

/-- The literal of the pattern `GERAL:\s*(...)`. -/
def geralLit : List Char := "GERAL:".data

theorem tryQualAt_length_pos (lit t : List Char) (hlit : lit ≠ [])
    (cap : String) (n : ℕ) (h : tryQualAt lit t = some (cap, n)) : 0 < n := by
  unfold tryQualAt at h
  by_cases hm : matchesCaselessAt lit t
  · rw [if_pos hm] at h
    rcases hmatch : matchQualityLabel ((t.drop lit.length).dropWhile isPySpace)
      with _ | ⟨cap', m⟩
    · rw [hmatch] at h; exact absurd h (by simp)
    · rw [hmatch] at h
      simp only [Option.some.injEq, Prod.mk.injEq] at h
      have hl : 0 < lit.length := List.length_pos.mpr hlit
      omega
  · rw [if_neg hm] at h; exact absurd h (by simp)

/-- `re.findall(r"AVALIAÇÃO:\s*(...)", feedback)`: all captures of
non-overlapping matches, scanning left to right. -/
def findAllAssessments : List Char → List String
  | [] => []
  | c :: rest =>
    match h : tryQualAt avaliacaoLit (c :: rest) with
    | some (cap, n) => cap :: findAllAssessments ((c :: rest).drop n)
    | none => findAllAssessments rest
termination_by t => t.length
decreasing_by
  · have hn : 0 < n := tryQualAt_length_pos _ _ (by decide) _ _ h
    simp only [List.length_drop, List.length_cons]
    omega
  · simp only [List.length_cons]
    omega

/-- The dict lookup `quality_scores.get(quality, 400)` of `_extract_score`
(exact, case-sensitive keys — a capture matched caselessly falls to the
default 400). -/
def qualityScoresGet (q : String) : ℚ :=
  if q = "Insuficiente" then 200
  else if q = "Regular" then 400
  else if q = "Bom" then 600
  else if q = "Muito Bom" then 800
  else if q = "Excelente" then 1000
  else 400

/-- Numeric value of a `\d+` capture. -/
def digitsToNat (ds : List Char) : ℕ :=
  ds.foldl (fun a c => 10 * a + (c.toNat - 48)) 0

/-- Match `lit` + `\s*` + `(\d+)` + (`/1000`, or `\s*/\s*1000` when
`flexSlash`) at the head of `t`; returns the captured number. -/
def matchNumAt (lit : List Char) (flexSlash : Bool) (t : List Char) :
    Option ℕ :=
  if matchesCaselessAt lit t then
    let r1 := (t.drop lit.length).dropWhile isPySpace
    let ds := r1.takeWhile Char.isDigit
    if ds = [] then none
    else
      let r2 := r1.drop ds.length
      if flexSlash then
        match r2.dropWhile isPySpace with
        | '/' :: r4 =>
          if matchesCaselessAt "1000".data (r4.dropWhile isPySpace) then
            some (digitsToNat ds)
          else none
        | _ => none
      else
        if matchesCaselessAt "/1000".data r2 then some (digitsToNat ds)
        else none
  else none

/-- `re.search` for a numeric score pattern. -/
def searchNum (lit : List Char) (flexSlash : Bool) : List Char → Option ℕ
  | [] => matchNumAt lit flexSlash []
  | c :: rest =>
    match matchNumAt lit flexSlash (c :: rest) with
    | some v => some v
    | none => searchNum lit flexSlash rest

/-- `AIService._extract_score(feedback, analysis_type)`: paragraph mode maps
the first qualitative marker (three patterns tried in order) through the
label dictionary, else averages the individual assessments, else defaults to
400; full mode tries the four `N/1000` patterns in order. Empty feedback
short-circuits to `None`. -/
def extractScore (feedback : String) (analysis_type : String) : Option ℚ :=
  if feedback = "" then none
  else if analysis_type = "paragraph" then
    match searchQual avaliacaoGeralLit feedback.data with
    | some q => some (qualityScoresGet q)
    | none =>
      match searchQual avaliacaoLit feedback.data with
      | some q => some (qualityScoresGet q)
      | none =>
        match searchQual geralLit feedback.data with
        | some q => some (qualityScoresGet q)
        | none =>
          match findAllAssessments feedback.data with
          | [] => some 400
          | a :: rest =>
            some ((((a :: rest).map qualityScoresGet).sum) /
              ((a :: rest).length : ℚ))
  else
    match searchNum "NOTA FINAL:".data false feedback.data with
    | some v => some (v : ℚ)
    | none =>
      match searchNum "NOTA FINAL:".data true feedback.data with
      | some v => some (v : ℚ)
      | none =>
        match searchNum "TOTAL:".data false feedback.data with
        | some v => some (v : ℚ)
        | none =>
          match searchNum [] false feedback.data with
          | some v => some (v : ℚ)
          | none => none

/-- A feedback text carries a qualitative assessment marker when any of the
three `re.search` patterns of paragraph mode hits. -/
def hasQualMarker (feedback : String) : Bool :=
  (searchQual avaliacaoGeralLit feedback.data).isSome ||
  (searchQual avaliacaoLit feedback.data).isSome ||
  (searchQual geralLit feedback.data).isSome

theorem findAll_nil_of_search_none (t : List Char)
    (h : searchQual avaliacaoLit t = none) : findAllAssessments t = [] := by
  induction t with
  | nil => rw [findAllAssessments]
  | cons c rest ih =>
    rcases htry : tryQualAt avaliacaoLit (c :: rest) with _ | ⟨cap, n⟩
    · have hrest : searchQual avaliacaoLit rest = none := by
        unfold searchQual at h
        rw [htry] at h
        exact h
      unfold findAllAssessments
      rw [htry]
      exact ih hrest
    · exfalso
      unfold searchQual at h
      rw [htry] at h
      exact absurd h (by simp)

/-- C2 counterexample: the empty feedback text contains no qualitative
assessment marker, yet paragraph-mode extraction returns no score at all
(`if not feedback: return None` precedes the paragraph branch) instead of
the mid-point 400. -/
theorem extract_score_empty_feedback_counterexample :
    hasQualMarker "" = false ∧ extractScore "" "paragraph" = none ∧
      extractScore "" "paragraph" ≠ some 400 := by
  refine ⟨by decide, rfl, by simp [extractScore]⟩

/-- C2 (amended): for every non-empty feedback text containing no
qualitative assessment marker, paragraph-mode extraction returns the fixed
numeric equivalent 400 of the mid-point label Regular. -/
theorem extract_score_paragraph_default_midpoint (feedback : String)
    (hne : feedback ≠ "") (hnm : hasQualMarker feedback = false) :
    extractScore feedback "paragraph" = some 400 := by
  have hsplit := hnm
  unfold hasQualMarker at hsplit
  simp only [Bool.or_eq_false_iff] at hsplit
  obtain ⟨⟨h1, h2⟩, h3⟩ := hsplit
  have h1' : searchQual avaliacaoGeralLit feedback.data = none := by
    cases hh : searchQual avaliacaoGeralLit feedback.data <;>
      rw [hh] at h1 <;> simp at h1 ⊢
  have h2' : searchQual avaliacaoLit feedback.data = none := by
    cases hh : searchQual avaliacaoLit feedback.data <;>
      rw [hh] at h2 <;> simp at h2 ⊢
  have h3' : searchQual geralLit feedback.data = none := by
    cases hh : searchQual geralLit feedback.data <;>
      rw [hh] at h3 <;> simp at h3 ⊢
  unfold extractScore
  rw [if_neg hne, if_pos rfl, h1', h2', h3', findAll_nil_of_search_none _ h2']

/-- Closed instance of the amended C2 theorem: a short feedback with no
marker extracts to 400. -/
theorem extract_score_paragraph_default_midpoint_witness :
    "ok" ≠ "" ∧ hasQualMarker "ok" = false ∧
      extractScore "ok" "paragraph" = some 400 :=
  ⟨by decide, by decide,
    extract_score_paragraph_default_midpoint "ok" (by decide) (by decide)⟩

/-! ## Single-model correction service (`ai_service.py`, `AIService.correct_essay`)

The model invocation (`_call_ai_model` behind `_retry_with_backoff`) is an
oracle `invoke : String → ℕ → Except String String` giving the outcome of
each (model key, attempt number); the retry loop's sleeps are timing only.
The cache answer and the rate-limiter verdict are arguments. -/

/-- `RetryConfig` from `ai_service.py` (the delays only pace the sleeps). -/
structure RetryConfig where
  max_retries : ℕ := 3
  base_delay : ℚ := 1
  max_delay : ℚ := 60
  exponential_base : ℚ := 2

/-- `AIServiceConfig` from `ai_service.py`. -/
structure AIServiceConfig where
  rate_limit : RateLimitConfig := {}
  retry : RetryConfig := {}
  cache_ttl : ℕ := 86400
  fallback_enabled : Bool := true

/-- The registry keys of `ai_models_config.AI_MODELS`, in insertion order
(the order `self.ai_models.keys()` iterates for the fallback chain). -/
def aiModelKeys : List String :=
  ["deepseek_14b", "llama_253b", "deepseek_r1", "kimi_k2", "qwen3_235b",
   "llama_49b"]

/-- Python truthiness of the optional `user_id` argument (`if user_id:`):
absent and empty strings are falsy. -/
def userTruthy : Option String → Bool
  | none => false
  | some s => s ≠ ""

/-- Python's `not s or not s.strip()`: true exactly when every character is
whitespace (so `s.strip()` is empty), the empty string included. -/
def isBlank (s : String) : Bool :=
  s.data.all (fun c => c.isWhitespace)

/-- `_retry_with_backoff` starting at `attempt` with `fuel` retries left:
first success wins, the last attempt's error propagates. -/
def retryFrom (f : ℕ → Except String String) : ℕ → ℕ → Except String String
  | attempt, 0 => f attempt
  | attempt, fuel + 1 =>
    match f attempt with
    | .ok v => .ok v
    | .error _ => retryFrom f (attempt + 1) fuel

/-- `_retry_with_backoff(func)`: attempts `0 .. max_retries`. -/
def retryWithBackoff (cfg : AIServiceConfig) (f : ℕ → Except String String) :
    Except String String :=
  retryFrom f 0 cfg.retry.max_retries

/-- The fallback loop of `correct_essay`: try each remaining model (with the
same retry policy) and stop at the first success, returning (feedback,
model that answered). -/
def tryFallbacks (cfg : AIServiceConfig)
    (invoke : String → ℕ → Except String String) :
    List String → Option (String × String)
  | [] => none
  | m :: rest =>
    match retryWithBackoff cfg (invoke m) with
    | .ok fb => some (fb, m)
    | .error _ => tryFallbacks cfg invoke rest

/-- The result dict of `correct_essay` / `_get_fallback_response` (the canned
response carries no `model` / `analysis_type` keys, hence the `Option`s). -/
structure CorrectionResult where
  feedback : String
  score : Option ℚ
  model : Option String
  analysis_type : Option String
  is_fallback : Bool
  fallback_reason : Option String := none
deriving DecidableEq

/-- Errors raised by `correct_essay`. -/
inductive CorrectError where
  | contentTooLong (msg : String)
  | emptyContent
  | rateLimited (wait : ℚ)
  | serviceUnavailable
deriving DecidableEq

/-- The canned "service unavailable" payload of `_get_fallback_response`. -/
def fallbackResult (theme analysis_type : String) : CorrectionResult :=
  if analysis_type = "paragraph" then
    { feedback := "**ANÁLISE INDISPONÍVEL**\n\nO serviço de correção está temporariamente indisponível. \n\n**DICAS GERAIS PARA O TEMA \"" ++ theme ++ "\":**\n- Desenvolva uma tese clara na introdução\n- Use argumentos consistentes e bem fundamentados\n- Conecte ideias com conectivos apropriados\n- Proponha intervenção específica e detalhada\n- Revise gramática e ortografia\n\n**NOTA:** Análise não disponível\n**STATUS:** Tente novamente em alguns minutos"
      score := none
      model := none
      analysis_type := none
      is_fallback := true }
  else
    { feedback := "**SERVIÇO TEMPORARIAMENTE INDISPONÍVEL**\n\nA correção automática está em manutenção. Aqui estão dicas gerais para o tema \"" ++ theme ++ "\":\n\n**ESTRUTURA RECOMENDADA:**\n1. **Introdução:** Contextualize o tema e apresente sua tese\n2. **Desenvolvimento:** 2 parágrafos com argumentos distintos e bem fundamentados\n3. **Conclusão:** Retome a tese e proponha intervenção detalhada\n\n**CRITÉRIOS ENEM:**\n- **Norma Culta:** Revise gramática, ortografia e concordância\n- **Tema:** Mantenha-se dentro do tema proposto\n- **Argumentação:** Use dados, exemplos e referências\n- **Coesão:** Conecte ideias com conectivos adequados\n- **Proposta:** Seja específico (agente, ação, meio, finalidade)\n\n**NOTA:** Análise detalhada indisponível\n**STATUS:** Tente novamente em alguns minutos"
      score := none
      model := none
      analysis_type := none
      is_fallback := true }

/-- `_get_fallback_response`: raises when fallback is disabled, otherwise
returns the canned payload. -/
def getFallbackResponse (cfg : AIServiceConfig) (theme analysis_type : String) :
    Except CorrectError CorrectionResult :=
  if cfg.fallback_enabled = false then .error .serviceUnavailable
  else .ok (fallbackResult theme analysis_type)

/-- The tail of `correct_essay` after model auto-selection and the length
gate: empty-content check, rate-limit gate, cache gate, primary model with
retry, fallback chain, canned response. -/
def correctEssayValidated (cfg : AIServiceConfig)
    (content theme model_key : String) (user_id : Option String)
    (rateAllowed : Bool) (wait : ℚ) (cached : Option CorrectionResult)
    (analysis_type : String) (invoke : String → ℕ → Except String String) :
    Except CorrectError CorrectionResult :=
  if isBlank content then .error .emptyContent
  else if userTruthy user_id && !rateAllowed then .error (.rateLimited wait)
  else
    match cached with
    | some r => .ok r
    | none =>
      match retryWithBackoff cfg (invoke model_key) with
      | .ok feedback =>
        .ok { feedback := feedback
              score := extractScore feedback analysis_type
              model := some model_key
              analysis_type := some analysis_type
              is_fallback := false }
      | .error _ =>
        match tryFallbacks cfg invoke
            (aiModelKeys.filter (fun m => m ≠ model_key)) with
        | some (fb, m) =>
          .ok { feedback := fb
                score := extractScore fb analysis_type
                model := some m
                analysis_type := some analysis_type
                is_fallback := true
                fallback_reason :=
                  some ("Primary model " ++ model_key ++ " failed") }
        | none => getFallbackResponse cfg theme analysis_type

/-- `AIService.correct_essay`: the caller-supplied `model_key` is overwritten
from `analysis_type` before anything else (DeepSeek 14B for paragraph, Llama
253B otherwise), then the per-kind length limit is enforced. -/
def correctEssay (cfg : AIServiceConfig) (content theme model_key : String)
    (user_id : Option String) (rateAllowed : Bool) (wait : ℚ)
    (cached : Option CorrectionResult) (analysis_type : String)
    (invoke : String → ℕ → Except String String) :
    Except CorrectError CorrectionResult :=
  if analysis_type = "paragraph" then
    if 2000 < content.length then
      .error (.contentTooLong "Paragraph content too long (max 2,000 characters)")
    else
      correctEssayValidated cfg content theme "deepseek_14b" user_id
        rateAllowed wait cached analysis_type invoke
  else
    if 10000 < content.length then
      .error (.contentTooLong "Essay content too long (max 10,000 characters)")
    else
      correctEssayValidated cfg content theme "llama_253b" user_id
        rateAllowed wait cached analysis_type invoke

theorem retryFrom_all_error (f : ℕ → Except String String)
    (err : ℕ → String) (h : ∀ a, f a = .error (err a)) :
    ∀ fuel attempt, retryFrom f attempt fuel = .error (err (attempt + fuel)) := by
  intro fuel
  induction fuel with
  | zero => intro attempt; simp [retryFrom, h attempt]
  | succ n ih =>
    intro attempt
    rw [retryFrom, h attempt]
    have := ih (attempt + 1)
    rw [this]
    ring_nf

theorem tryFallbacks_all_error (cfg : AIServiceConfig)
    (invoke : String → ℕ → Except String String) (err : String → ℕ → String)
    (h : ∀ m a, invoke m a = .error (err m a)) :
    ∀ ms, tryFallbacks cfg invoke ms = none := by
  intro ms
  induction ms with
  | nil => rfl
  | cons m rest ih =>
    rw [tryFallbacks, retryWithBackoff,
      retryFrom_all_error (invoke m) (err m) (h m)]
    exact ih

/-- C8: when the primary model and every fallback model fail on all attempts,
`correct_essay` does not raise: it returns the canned "service unavailable"
result, whose score is null and whose `is_fallback` flag is true. -/
theorem correct_essay_total_failure_canned_response (cfg : AIServiceConfig)
    (content theme model_key : String) (user_id : Option String)
    (rateAllowed : Bool) (wait : ℚ) (analysis_type : String)
    (invoke : String → ℕ → Except String String) (err : String → ℕ → String)
    (hfb : cfg.fallback_enabled = true)
    (hinv : ∀ m a, invoke m a = .error (err m a))
    (hlen : if analysis_type = "paragraph" then content.length ≤ 2000
            else content.length ≤ 10000)
    (hne : isBlank content = false)
    (hrate : userTruthy user_id = true → rateAllowed = true) :
    correctEssay cfg content theme model_key user_id rateAllowed wait none
        analysis_type invoke = .ok (fallbackResult theme analysis_type) ∧
    (fallbackResult theme analysis_type).score = none ∧
    (fallbackResult theme analysis_type).is_fallback = true := by
  have hgate : (userTruthy user_id && !rateAllowed) = false := by
    cases hu : userTruthy user_id
    · rfl
    · rw [hrate hu]; rfl
  have hcore : ∀ mk : String,
      correctEssayValidated cfg content theme mk user_id rateAllowed wait
        none analysis_type invoke = .ok (fallbackResult theme analysis_type) := by
    intro mk
    rw [correctEssayValidated,
      if_neg (by rw [hne]; exact fun h => Bool.noConfusion h),
      if_neg (by rw [hgate]; exact fun h => Bool.noConfusion h)]
    rw [retryWithBackoff, retryFrom_all_error (invoke mk) (err mk) (hinv mk)]
    rw [tryFallbacks_all_error cfg invoke err hinv]
    rw [getFallbackResponse,
      if_neg (by rw [hfb]; exact fun h => Bool.noConfusion h)]
  constructor
  · by_cases hp : analysis_type = "paragraph"
    · have hlen2 : ¬ 2000 < content.length := by
        rw [if_pos hp] at hlen; omega
      rw [correctEssay, if_pos hp, if_neg hlen2]
      exact hcore "deepseek_14b"
    · have hlen2 : ¬ 10000 < content.length := by
        rw [if_neg hp] at hlen; omega
      rw [correctEssay, if_neg hp, if_neg hlen2]
      exact hcore "llama_253b"
  · constructor
    · by_cases hp : analysis_type = "paragraph" <;>
        simp [fallbackResult, hp]
    · by_cases hp : analysis_type = "paragraph" <;>
        simp [fallbackResult, hp]

/-- Closed instance of the C8 theorem: with every invocation failing, a
full-mode correction returns the canned result. -/
theorem correct_essay_total_failure_canned_response_witness :
    correctEssay {} "abc" "tema" "llama_253b" none true 0 none "full"
        (fun _ _ => .error "down") = .ok (fallbackResult "tema" "full") ∧
    (fallbackResult "tema" "full").score = none ∧
    (fallbackResult "tema" "full").is_fallback = true :=
  correct_essay_total_failure_canned_response {} "abc" "tema" "llama_253b"
    none true 0 "full" (fun _ _ => .error "down") (fun _ _ => "down")
    rfl (fun _ _ => rfl) (by decide) (by decide) (by intro h; cases h)

/-- C10: `correct_essay` is independent of its caller-supplied `model_key`:
the key is overwritten from `analysis_type` alone (DeepSeek 14B for
paragraph analysis, Llama 253B otherwise) before any validation, rate-limit,
cache, or model call. -/
theorem correct_essay_ignores_model_key (cfg : AIServiceConfig)
    (content theme k1 k2 : String) (user_id : Option String)
    (rateAllowed : Bool) (wait : ℚ) (cached : Option CorrectionResult)
    (analysis_type : String)
    (invoke : String → ℕ → Except String String) :
    correctEssay cfg content theme k1 user_id rateAllowed wait cached
        analysis_type invoke =
      correctEssay cfg content theme k2 user_id rateAllowed wait cached
        analysis_type invoke ∧
    (analysis_type = "paragraph" → content.length ≤ 2000 →
      correctEssay cfg content theme k1 user_id rateAllowed wait cached
          analysis_type invoke =
        correctEssayValidated cfg content theme "deepseek_14b" user_id
          rateAllowed wait cached analysis_type invoke) ∧
    (analysis_type ≠ "paragraph" → content.length ≤ 10000 →
      correctEssay cfg content theme k1 user_id rateAllowed wait cached
          analysis_type invoke =
        correctEssayValidated cfg content theme "llama_253b" user_id
          rateAllowed wait cached analysis_type invoke) := by
  refine ⟨rfl, ?_, ?_⟩
  · intro hp hlen
    rw [correctEssay, if_pos hp, if_neg (by omega)]
  · intro hp hlen
    rw [correctEssay, if_neg hp, if_neg (by omega)]

/-- Closed instance of the C10 theorem: two different caller keys give the
same result, which is the validated path with the auto-selected primary. -/
theorem correct_essay_ignores_model_key_witness :
    correctEssay {} "abc" "t" "kimi_k2" none true 0 none "paragraph"
        (fun _ _ => .error "x") =
      correctEssay {} "abc" "t" "qwen3_235b" none true 0 none "paragraph"
        (fun _ _ => .error "x") ∧
    correctEssay {} "abc" "t" "kimi_k2" none true 0 none "paragraph"
        (fun _ _ => .error "x") =
      correctEssayValidated {} "abc" "t" "deepseek_14b" none true 0 none
        "paragraph" (fun _ _ => .error "x") :=
  ⟨(correct_essay_ignores_model_key {} "abc" "t" "kimi_k2" "qwen3_235b" none
      true 0 none "paragraph" (fun _ _ => .error "x")).1,
   (correct_essay_ignores_model_key {} "abc" "t" "kimi_k2" "qwen3_235b" none
      true 0 none "paragraph" (fun _ _ => .error "x")).2.1 rfl (by decide)⟩

/-! ## Enhanced two-phase orchestrator (`enhanced_deep_analysis.py`)

Phase-1 model outcomes arrive as three `Option Phase1ModelResult` (an absent
value models a task whose `gather` slot was not a `Phase1ModelResult`); the
Phase-2 synthesis call is an oracle outcome. The `Bool` paired with
`runPhase2Synthesis`'s result records whether the synthesis model was
actually invoked. -/

/-- `Phase1ModelResult` (timing fields omitted). -/
structure Phase1ModelResult where
  model : String
  feedback : String
  score : Option ℚ
  error : Option String := none
  success : Bool := true
  raw_output : String := ""
deriving DecidableEq

/-- `Phase1Results` (timing fields omitted). -/
structure Phase1Results where
  kimi_result : Option Phase1ModelResult := none
  qwen_result : Option Phase1ModelResult := none
  deepseek_result : Option Phase1ModelResult := none
  successful_models : ℕ := 0
deriving DecidableEq

/-- The tail of `_run_phase1_analysis`: tally `successful_models` as
`sum(1 for result in [...] if result and result.success)`. -/
def runPhase1Analysis (kimi qwen deepseek : Option Phase1ModelResult) :
    Phase1Results :=
  { kimi_result := kimi
    qwen_result := qwen
    deepseek_result := deepseek
    successful_models :=
      (([kimi, qwen, deepseek].filterMap id).countP (fun r => r.success)) }

/-- `Phase2Result` (timing fields omitted). -/
structure Phase2Result where
  consolidated_feedback : String
  final_score : Option ℚ
  reliability_level : String
  error : Option String := none
  success : Bool := true
deriving DecidableEq

/-- `config["min_successful_models"]` of the enhanced service. -/
def enhancedMinSuccessfulModels : ℕ := 1

/-- Match `lit` + `\s*` + `(\d+)` + `/` + `(\d+)` at the head of `t`. -/
def matchFracAt (lit t : List Char) : Option (ℕ × ℕ) :=
  if matchesCaselessAt lit t then
    let r1 := (t.drop lit.length).dropWhile isPySpace
    let ds := r1.takeWhile Char.isDigit
    if ds = [] then none
    else
      match r1.drop ds.length with
      | '/' :: r2 =>
        let ts := r2.takeWhile Char.isDigit
        if ts = [] then none
        else some (digitsToNat ds, digitsToNat ts)
      | _ => none
  else none

/-- `re.search` for a `(\d+)/(\d+)` synthesis-score pattern. -/
def searchFrac (lit : List Char) : List Char → Option (ℕ × ℕ)
  | [] => matchFracAt lit []
  | c :: rest =>
    match matchFracAt lit (c :: rest) with
    | some v => some v
    | none => searchFrac lit rest

/-- Normalization step of `_extract_synthesis_score`: scale to /1000 when the
denominator differs (a zero denominator raises `ZeroDivisionError`, which the
surrounding `except` turns into `None`). -/
def normalizeSynthScore (s t : ℕ) : Option ℚ :=
  if t = 0 then none
  else if (t : ℚ) ≠ 1000 then some ((s : ℚ) / (t : ℚ) * 1000)
  else some (s : ℚ)

/-- `_extract_synthesis_score`: the four "consolidated total" patterns in
order (under `re.IGNORECASE` patterns 1/2 and 3/4 coincide). -/
def extractSynthesisScore (feedback : String) : Option ℚ :=
  match searchFrac "Nota Total Consolidada:".data feedback.data with
  | some (s, t) => normalizeSynthScore s t
  | none =>
    match searchFrac "NOTA TOTAL CONSOLIDADA:".data feedback.data with
    | some (s, t) => normalizeSynthScore s t
    | none =>
      match searchFrac "Nota Final:".data feedback.data with
      | some (s, t) => normalizeSynthScore s t
      | none =>
        match searchFrac "NOTA FINAL:".data feedback.data with
        | some (s, t) => normalizeSynthScore s t
        | none => none

/-- `_calculate_reliability_level`: thresholds on
`success_rate = successful_models / 3.0`. The Python comparisons are on
floats; for every reachable numerator 0–3 the float and exact-rational
verdicts of `>= 1.0`, `>= 0.67`, `>= 0.33` coincide (in both, 2/3 < 0.67). -/
def calculateReliabilityLevel (p : Phase1Results) : String :=
  let success_rate : ℚ := (p.successful_models : ℚ) / 3
  if success_rate ≥ 1 then "very_high"
  else if success_rate ≥ 67/100 then "high"
  else if success_rate ≥ 33/100 then "medium"
  else "very_low"

/-- Outcome of the Phase-2 `correct_essay` call on the synthesis model. -/
inductive SynthCallOutcome where
  | ok (feedback : String)
  | timeout
  | failed (msg : String)
deriving DecidableEq

/-- The degraded feedback of the insufficient-Phase-1-data guard. -/
def insufficientDataFeedback : String :=
  "**ANÁLISE PROFUNDA INDISPONÍVEL**\n\nNão foi possível obter análises suficientes dos modelos primários para realizar a síntese."

/-- The degraded feedback of the Phase-2 timeout handler. -/
def phase2TimeoutFeedback : String :=
  "**ANÁLISE PROFUNDA INDISPONÍVEL**\n\nO processo de síntese das análises excedeu o tempo limite."

/-- The degraded feedback of the Phase-2 exception handler. -/
def phase2ErrorFeedback : String :=
  "**ANÁLISE PROFUNDA INDISPONÍVEL**\n\nOcorreu um erro durante o processo de síntese das análises."

/-- `_run_phase2_synthesis`: guard on the Phase-1 success count (skipping the
model call entirely, hence the `false` flag), otherwise the oracle's outcome
with score extraction and success-ratio reliability. -/
def runPhase2Synthesis (p1 : Phase1Results) (synth : SynthCallOutcome) :
    Phase2Result × Bool :=
  if p1.successful_models < enhancedMinSuccessfulModels then
    ({ consolidated_feedback := insufficientDataFeedback
       final_score := none
       reliability_level := "very_low"
       error := some ("Insufficient successful Phase 1 models (" ++
         toString p1.successful_models ++ ") for synthesis")
       success := false }, false)
  else
    match synth with
    | .ok feedback =>
      ({ consolidated_feedback := feedback
         final_score := extractSynthesisScore feedback
         reliability_level := calculateReliabilityLevel p1
         error := none
         success := true }, true)
    | .timeout =>
      ({ consolidated_feedback := phase2TimeoutFeedback
         final_score := none
         reliability_level := "low"
         error := some "Phase 2 synthesis timed out after 180s"
         success := false }, true)
    | .failed m =>
      ({ consolidated_feedback := phase2ErrorFeedback
         final_score := none
         reliability_level := "very_low"
         error := some ("Phase 2 synthesis failed: " ++ m)
         success := false }, true)

/-- `EnhancedDeepAnalysisResult` (hash/cache-key/timing fields omitted). -/
structure EnhancedDeepAnalysisResult where
  theme : String
  analysis_type : String
  exam_type : String
  phase1_results : Phase1Results
  phase2_result : Phase2Result
deriving DecidableEq

/-- Errors raised by `analyze_enhanced_deep`. -/
inductive EnhancedError where
  | emptyContent
  | emptyTheme
  | rateLimited (wait : ℚ)
deriving DecidableEq

/-- `analyze_enhanced_deep`: validation, cache gate, rate-limit gate, Phase 1
barrier, Phase 2 synthesis. The returned `Bool` records whether the
synthesis model was invoked. -/
def analyzeEnhancedDeep (content theme analysis_type exam_type : String)
    (cached : Option EnhancedDeepAnalysisResult) (user_id : Option String)
    (rateAllowed : Bool) (wait : ℚ)
    (kimi qwen deepseek : Option Phase1ModelResult)
    (synth : SynthCallOutcome) :
    Except EnhancedError (EnhancedDeepAnalysisResult × Bool) :=
  if isBlank content then .error .emptyContent
  else if isBlank theme then .error .emptyTheme
  else
    match cached with
    | some r => .ok (r, false)
    | none =>
      if userTruthy user_id && !rateAllowed then .error (.rateLimited wait)
      else
        let p1 := runPhase1Analysis kimi qwen deepseek
        let pc := runPhase2Synthesis p1 synth
        .ok ({ theme := theme
               analysis_type := analysis_type
               exam_type := exam_type
               phase1_results := p1
               phase2_result := pc.1 }, pc.2)

/-- C1: `_calculate_reliability_level` evaluated on every possible Phase-1
success count. Two successes give "medium", not the "high" the spec (and the
code's own branch comment "2 out of 3 models successful") prescribe, because
2/3 = 0.666… fails the `>= 0.67` test. -/
theorem reliability_level_success_counts :
    calculateReliabilityLevel { successful_models := 3 } = "very_high" ∧
    calculateReliabilityLevel { successful_models := 2 } = "medium" ∧
    calculateReliabilityLevel { successful_models := 1 } = "medium" ∧
    calculateReliabilityLevel { successful_models := 0 } = "very_low" ∧
    calculateReliabilityLevel { successful_models := 2 } ≠ "high" := by
  refine ⟨?_, ?_, ?_, ?_, ?_⟩
  · norm_num [calculateReliabilityLevel]
  · norm_num [calculateReliabilityLevel]
  · norm_num [calculateReliabilityLevel]
  · norm_num [calculateReliabilityLevel]
  · norm_num [calculateReliabilityLevel]
    decide

/-- C7: when no Phase-1 primary model succeeds, `analyze_enhanced_deep`
returns `.ok` (it does not raise) with a `Phase2Result` that is marked
unsuccessful, carries reliability "very_low", a null final score and the
"insufficient data" feedback — and the synthesis model is never invoked
(the `false` flag). -/
theorem enhanced_zero_successes_degraded_result
    (content theme analysis_type exam_type : String)
    (user_id : Option String) (rateAllowed : Bool) (wait : ℚ)
    (kimi qwen deepseek : Option Phase1ModelResult) (synth : SynthCallOutcome)
    (hc : isBlank content = false) (ht : isBlank theme = false)
    (hrate : userTruthy user_id = true → rateAllowed = true)
    (hk : ∀ r, kimi = some r → r.success = false)
    (hq : ∀ r, qwen = some r → r.success = false)
    (hd : ∀ r, deepseek = some r → r.success = false) :
    analyzeEnhancedDeep content theme analysis_type exam_type none user_id
        rateAllowed wait kimi qwen deepseek synth =
      .ok ({ theme := theme
             analysis_type := analysis_type
             exam_type := exam_type
             phase1_results := runPhase1Analysis kimi qwen deepseek
             phase2_result :=
               { consolidated_feedback := insufficientDataFeedback
                 final_score := none
                 reliability_level := "very_low"
                 error := some ("Insufficient successful Phase 1 models (" ++
                   toString (runPhase1Analysis kimi qwen deepseek).successful_models
                   ++ ") for synthesis")
                 success := false } }, false) ∧
    (runPhase1Analysis kimi qwen deepseek).successful_models = 0 := by
  have hcount : (runPhase1Analysis kimi qwen deepseek).successful_models = 0 := by
    have hall : ∀ r ∈ [kimi, qwen, deepseek].filterMap id, ¬ (r.success = true) := by
      intro r hr
      rw [List.mem_filterMap] at hr
      obtain ⟨o, ho, hid⟩ := hr
      simp only [id] at hid
      subst hid
      simp only [List.mem_cons, List.not_mem_nil, or_false] at ho
      rcases ho with h | h | h
      · rw [hk r h.symm]; exact fun hcon => Bool.noConfusion hcon
      · rw [hq r h.symm]; exact fun hcon => Bool.noConfusion hcon
      · rw [hd r h.symm]; exact fun hcon => Bool.noConfusion hcon
    exact List.countP_eq_zero.mpr hall
  have hgate : (userTruthy user_id && !rateAllowed) = false := by
    cases hu : userTruthy user_id
    · rfl
    · rw [hrate hu]; rfl
  constructor
  · rw [analyzeEnhancedDeep,
      if_neg (by rw [hc]; exact fun h => Bool.noConfusion h),
      if_neg (by rw [ht]; exact fun h => Bool.noConfusion h)]
    simp only
    rw [if_neg (by rw [hgate]; exact fun h => Bool.noConfusion h)]
    rw [runPhase2Synthesis.eq_def, if_pos (by rw [hcount]; decide)]
  · exact hcount

/-- Closed instance of the C7 theorem: all three Phase-1 slots empty. -/
theorem enhanced_zero_successes_degraded_result_witness :
    analyzeEnhancedDeep "abc" "t" "full" "ENEM" none none true 0
        none none none (.ok "unused") =
      .ok ({ theme := "t"
             analysis_type := "full"
             exam_type := "ENEM"
             phase1_results := runPhase1Analysis none none none
             phase2_result :=
               { consolidated_feedback := insufficientDataFeedback
                 final_score := none
                 reliability_level := "very_low"
                 error := some ("Insufficient successful Phase 1 models (" ++
                   toString (runPhase1Analysis none none none).successful_models
                   ++ ") for synthesis")
                 success := false } }, false) ∧
    (runPhase1Analysis none none none).successful_models = 0 :=
  enhanced_zero_successes_degraded_result "abc" "t" "full" "ENEM" none true 0
    none none none (.ok "unused") (by decide) (by decide)
    (fun h => absurd h (by decide))
    (fun r h => Option.noConfusion h)
    (fun r h => Option.noConfusion h)
    (fun r h => Option.noConfusion h)

/-! ## Consensus engine (`deep_analysis.py`, `_calculate_consensus_metrics`)

Scores live in `ℝ` because the code takes `statistics.stdev` (a square
root); the definitions in this section are therefore noncomputable, and
concrete instances are evaluated with `norm_num` / `Real.sqrt` lemmas
instead of `decide`. Each local variable of the Python function is a named
definition; `calculateConsensusMetrics` assembles them exactly as the
source does. -/

/-- `ModelResult` of `deep_analysis.py` (timing fields omitted). -/
structure ModelResult where
  model : String
  feedback : String
  score : Option ℝ
  error : Option String := none
  success : Bool := true

/-- `AnalysisReliability` enum. -/
inductive AnalysisReliability where
  | very_high
  | high
  | medium
  | low
  | very_low
deriving DecidableEq

/-- `ConsensusMetrics` dataclass. -/
structure ConsensusMetrics where
  score_variance : ℝ
  score_std_dev : ℝ
  agreement_percentage : ℝ
  reliability_level : AnalysisReliability
  outlier_models : List String
  consensus_score : Option ℝ

/-- `config["min_models_for_consensus"]`. -/
def minModelsForConsensus : ℕ := 2

/-- `config["outlier_threshold"]` (z-score threshold, 2.0 std deviations). -/
noncomputable def outlierThreshold : ℝ := 2

/-- `successful_results = [r for r in model_results if r.success and r.score
is not None]`, paired with the (guaranteed non-null) score each carries. -/
def qualifiedResults (l : List ModelResult) : List (String × ℝ) :=
  l.filterMap (fun r => if r.success then r.score.map (fun s => (r.model, s))
    else none)

/-- `statistics.mean`. -/
noncomputable def listMean (l : List ℝ) : ℝ := l.sum / l.length

/-- `statistics.variance` (sample variance, denominator `n - 1`). -/
noncomputable def sampleVariance (l : List ℝ) : ℝ :=
  ((l.map (fun x => (x - listMean l) ^ 2)).sum) / ((l.length : ℝ) - 1)

/-- Python's `sorted`. -/
noncomputable def pySorted (l : List ℝ) : List ℝ := l.insertionSort (· ≤ ·)

/-- `statistics.median`: middle of the sorted list, or the average of the
two middles for even length (callers guarantee non-emptiness). -/
noncomputable def listMedian (l : List ℝ) : ℝ :=
  let s := pySorted l
  if l.length % 2 = 1 then s.getD (l.length / 2) 0
  else (s.getD (l.length / 2 - 1) 0 + s.getD (l.length / 2) 0) / 2

/-- `scores = [r.score for r in successful_results]`. -/
def scoresOf (l : List ModelResult) : List ℝ := (qualifiedResults l).map Prod.snd

/-- `mean_score = statistics.mean(scores)`. -/
noncomputable def meanOf (l : List ModelResult) : ℝ := listMean (scoresOf l)

/-- `variance = statistics.variance(scores) if len(scores) > 1 else 0.0`. -/
noncomputable def varianceOf (l : List ModelResult) : ℝ :=
  if 1 < (scoresOf l).length then sampleVariance (scoresOf l) else 0

/-- `std_dev = statistics.stdev(scores) if len(scores) > 1 else 0.0`. -/
noncomputable def stdDevOf (l : List ModelResult) : ℝ :=
  if 1 < (scoresOf l).length then Real.sqrt (sampleVariance (scoresOf l))
  else 0

/-- The outlier loop: with positive std-dev, flag every qualifying result
whose z-score `|score - mean| / std_dev` exceeds the threshold, in input
order; with zero std-dev, no outliers. -/
noncomputable def outliersOf (l : List ModelResult) : List String :=
  if 0 < stdDevOf l then
    ((qualifiedResults l).filter
      (fun p => decide (outlierThreshold < |p.2 - meanOf l| / stdDevOf l))).map
      Prod.fst
  else []

/-- `agreement_percentage = max(0, (1 - cv) * 100)` with
`cv = std_dev / mean_score`, guarded by `mean_score > 0`. -/
noncomputable def agreementOf (l : List ModelResult) : ℝ :=
  if 0 < meanOf l then max 0 ((1 - stdDevOf l / meanOf l) * 100) else 0

/-- The reliability if-chain of `_calculate_consensus_metrics` as a function
of the agreement percentage (the spec's `classify_reliability` contract:
cut points at exactly 90 / 75 / 60 / 40). -/
noncomputable def classifyReliability (a : ℝ) : AnalysisReliability :=
  if a ≥ 90 then .very_high
  else if a ≥ 75 then .high
  else if a ≥ 60 then .medium
  else if a ≥ 40 then .low
  else .very_low

/-- The reliability level computed by the source (the same if-chain applied
to the computed agreement percentage). -/
noncomputable def reliabilityOf (l : List ModelResult) : AnalysisReliability :=
  if agreementOf l ≥ 90 then .very_high
  else if agreementOf l ≥ 75 then .high
  else if agreementOf l ≥ 60 then .medium
  else if agreementOf l ≥ 40 then .low
  else .very_low

/-- `non_outlier_scores = [r.score for r in successful_results if r.model
not in outlier_models]`. -/
noncomputable def nonOutlierScoresOf (l : List ModelResult) : List ℝ :=
  ((qualifiedResults l).filter
    (fun p => !decide (p.1 ∈ outliersOf l))).map Prod.snd

/-- `consensus_score = statistics.median(non_outlier_scores) if
non_outlier_scores else mean_score`. -/
noncomputable def consensusScoreOf (l : List ModelResult) : ℝ :=
  if nonOutlierScoresOf l ≠ [] then listMedian (nonOutlierScoresOf l)
  else meanOf l

/-- `_calculate_consensus_metrics`: the under-minimum guard, else the
assembled statistics. -/
noncomputable def calculateConsensusMetrics (l : List ModelResult) :
    ConsensusMetrics :=
  if (qualifiedResults l).length < minModelsForConsensus then
    { score_variance := 0
      score_std_dev := 0
      agreement_percentage := 0
      reliability_level := .very_low
      outlier_models := []
      consensus_score := none }
  else
    { score_variance := varianceOf l
      score_std_dev := stdDevOf l
      agreement_percentage := agreementOf l
      reliability_level := reliabilityOf l
      outlier_models := outliersOf l
      consensus_score := some (consensusScoreOf l) }

/-- C5: with fewer than 2 results that are both successful and scored, the
consensus computation returns (without raising) zero variance, zero std-dev,
zero agreement, the lowest reliability tier, no outliers, and a null
consensus score. -/
theorem consensus_below_minimum (l : List ModelResult)
    (h : (qualifiedResults l).length < 2) :
    calculateConsensusMetrics l =
      { score_variance := 0
        score_std_dev := 0
        agreement_percentage := 0
        reliability_level := .very_low
        outlier_models := []
        consensus_score := none } := by
  rw [calculateConsensusMetrics,
    if_pos (show (qualifiedResults l).length < minModelsForConsensus from h)]

/-- Closed instance of the C5 theorem: a single successful scored result. -/
theorem consensus_below_minimum_witness :
    calculateConsensusMetrics [⟨"m1", "fb", some 500, none, true⟩] =
      { score_variance := 0
        score_std_dev := 0
        agreement_percentage := 0
        reliability_level := .very_low
        outlier_models := []
        consensus_score := none } :=
  consensus_below_minimum _ (by decide)

/-- C3: with at least 2 qualifying results, the reliability level of the
computed metrics is exactly the classification of the computed agreement
percentage by the 90/75/60/40 cut points, and the classification maps
95, 80, 65, 45, 20 (and the boundary values 90, 75, 60, 40) to the
prescribed tiers. -/
theorem consensus_reliability_classification (l : List ModelResult)
    (h : 2 ≤ (qualifiedResults l).length) :
    (calculateConsensusMetrics l).reliability_level =
      classifyReliability ((calculateConsensusMetrics l).agreement_percentage) ∧
    classifyReliability 95 = .very_high ∧
    classifyReliability 80 = .high ∧
    classifyReliability 65 = .medium ∧
    classifyReliability 45 = .low ∧
    classifyReliability 20 = .very_low ∧
    classifyReliability 90 = .very_high ∧
    classifyReliability 75 = .high ∧
    classifyReliability 60 = .medium ∧
    classifyReliability 40 = .low := by
  refine ⟨?_, ?_, ?_, ?_, ?_, ?_, ?_, ?_, ?_, ?_⟩
  · rw [calculateConsensusMetrics,
      if_neg (by simp only [minModelsForConsensus]; omega)]
    rfl
  · norm_num [classifyReliability]
  · norm_num [classifyReliability]
  · norm_num [classifyReliability]
  · norm_num [classifyReliability]
  · norm_num [classifyReliability]
  · norm_num [classifyReliability]
  · norm_num [classifyReliability]
  · norm_num [classifyReliability]
  · norm_num [classifyReliability]

/-- Closed instance of the C3 theorem at two agreeing results. -/
theorem consensus_reliability_classification_witness :
    (calculateConsensusMetrics [⟨"m1", "", some 100, none, true⟩,
        ⟨"m2", "", some 100, none, true⟩]).reliability_level =
      classifyReliability ((calculateConsensusMetrics
        [⟨"m1", "", some 100, none, true⟩,
         ⟨"m2", "", some 100, none, true⟩]).agreement_percentage) ∧
    classifyReliability 95 = .very_high ∧
    classifyReliability 80 = .high ∧
    classifyReliability 65 = .medium ∧
    classifyReliability 45 = .low ∧
    classifyReliability 20 = .very_low ∧
    classifyReliability 90 = .very_high ∧
    classifyReliability 75 = .high ∧
    classifyReliability 60 = .medium ∧
    classifyReliability 40 = .low :=
  consensus_reliability_classification _ (by decide)

/-- C4: with at least 2 qualifying results, the consensus score is the median
of the scores of qualifying results not flagged in the metrics' own outlier
list — falling back to the mean of all qualifying scores were that list of
scores empty — and in particular it is non-null. -/
theorem consensus_score_median_of_non_outliers (l : List ModelResult)
    (h : 2 ≤ (qualifiedResults l).length) :
    (calculateConsensusMetrics l).consensus_score =
      some (if ((qualifiedResults l).filter
          (fun p => !decide (p.1 ∈ (calculateConsensusMetrics l).outlier_models))).map
            Prod.snd ≠ [] then
        listMedian (((qualifiedResults l).filter
          (fun p => !decide (p.1 ∈ (calculateConsensusMetrics l).outlier_models))).map
            Prod.snd)
      else listMean (scoresOf l)) := by
  rw [calculateConsensusMetrics,
    if_neg (by simp only [minModelsForConsensus]; omega)]
  rfl

/-- Closed instance of the C4 theorem at two agreeing results. -/
theorem consensus_score_median_of_non_outliers_witness :
    (calculateConsensusMetrics [⟨"a", "", some 700, none, true⟩,
        ⟨"b", "", some 700, none, true⟩]).consensus_score =
      some (if ((qualifiedResults [⟨"a", "", some 700, none, true⟩,
          ⟨"b", "", some 700, none, true⟩]).filter
          (fun p => !decide (p.1 ∈ (calculateConsensusMetrics
            [⟨"a", "", some 700, none, true⟩,
             ⟨"b", "", some 700, none, true⟩]).outlier_models))).map
            Prod.snd ≠ [] then
        listMedian (((qualifiedResults [⟨"a", "", some 700, none, true⟩,
          ⟨"b", "", some 700, none, true⟩]).filter
          (fun p => !decide (p.1 ∈ (calculateConsensusMetrics
            [⟨"a", "", some 700, none, true⟩,
             ⟨"b", "", some 700, none, true⟩]).outlier_models))).map
            Prod.snd)
      else listMean (scoresOf [⟨"a", "", some 700, none, true⟩,
        ⟨"b", "", some 700, none, true⟩])) :=
  consensus_score_median_of_non_outliers _ (by decide)

/-! ### Permutation invariance of the consensus computation (C6) -/

theorem listMean_perm {s s' : List ℝ} (hp : s.Perm s') :
    listMean s = listMean s' := by
  unfold listMean
  rw [hp.sum_eq, hp.length_eq]

theorem sampleVariance_perm {s s' : List ℝ} (hp : s.Perm s') :
    sampleVariance s = sampleVariance s' := by
  have hm := listMean_perm hp
  unfold sampleVariance
  rw [hm, hp.length_eq, (hp.map (fun x => (x - listMean s') ^ 2)).sum_eq]

theorem qualified_perm {l l' : List ModelResult} (h : l.Perm l') :
    (qualifiedResults l).Perm (qualifiedResults l') :=
  h.filterMap _

theorem scores_perm {l l' : List ModelResult} (h : l.Perm l') :
    (scoresOf l).Perm (scoresOf l') :=
  (qualified_perm h).map _

theorem meanOf_perm {l l' : List ModelResult} (h : l.Perm l') :
    meanOf l = meanOf l' :=
  listMean_perm (scores_perm h)

theorem varianceOf_perm {l l' : List ModelResult} (h : l.Perm l') :
    varianceOf l = varianceOf l' := by
  unfold varianceOf
  rw [(scores_perm h).length_eq, sampleVariance_perm (scores_perm h)]

theorem stdDevOf_perm {l l' : List ModelResult} (h : l.Perm l') :
    stdDevOf l = stdDevOf l' := by
  unfold stdDevOf
  rw [(scores_perm h).length_eq, sampleVariance_perm (scores_perm h)]

theorem outliersOf_perm {l l' : List ModelResult} (h : l.Perm l') :
    (outliersOf l).Perm (outliersOf l') := by
  unfold outliersOf
  rw [stdDevOf_perm h, meanOf_perm h]
  by_cases h0 : 0 < stdDevOf l'
  · rw [if_pos h0, if_pos h0]
    exact ((qualified_perm h).filter _).map _
  · rw [if_neg h0, if_neg h0]

theorem agreementOf_perm {l l' : List ModelResult} (h : l.Perm l') :
    agreementOf l = agreementOf l' := by
  unfold agreementOf
  rw [meanOf_perm h, stdDevOf_perm h]

theorem reliabilityOf_perm {l l' : List ModelResult} (h : l.Perm l') :
    reliabilityOf l = reliabilityOf l' := by
  unfold reliabilityOf
  rw [agreementOf_perm h]

theorem nonOutlierScores_perm {l l' : List ModelResult} (h : l.Perm l') :
    (nonOutlierScoresOf l).Perm (nonOutlierScoresOf l') := by
  unfold nonOutlierScoresOf
  have hfc : (qualifiedResults l').filter
        (fun p => !decide (p.1 ∈ outliersOf l)) =
      (qualifiedResults l').filter (fun p => !decide (p.1 ∈ outliersOf l')) :=
    List.filter_congr (fun x _ => by
      have hd : decide (x.1 ∈ outliersOf l) = decide (x.1 ∈ outliersOf l') :=
        decide_eq_decide.mpr (outliersOf_perm h).mem_iff
      rw [hd])
  have h1 : (((qualifiedResults l).filter
        (fun p => !decide (p.1 ∈ outliersOf l))).map Prod.snd).Perm
      (((qualifiedResults l').filter
        (fun p => !decide (p.1 ∈ outliersOf l))).map Prod.snd) :=
    ((qualified_perm h).filter _).map _
  rw [hfc] at h1
  exact h1

theorem pySorted_perm_eq {s s' : List ℝ} (hp : s.Perm s') :
    pySorted s = pySorted s' := by
  apply List.eq_of_perm_of_sorted (r := fun a b : ℝ => a ≤ b)
  · exact (List.perm_insertionSort _ s).trans
      (hp.trans (List.perm_insertionSort _ s').symm)
  · exact List.sorted_insertionSort _ s
  · exact List.sorted_insertionSort _ s'

theorem listMedian_perm {s s' : List ℝ} (hp : s.Perm s') :
    listMedian s = listMedian s' := by
  unfold listMedian
  rw [pySorted_perm_eq hp, hp.length_eq]

theorem consensusScoreOf_perm {l l' : List ModelResult} (h : l.Perm l') :
    consensusScoreOf l = consensusScoreOf l' := by
  unfold consensusScoreOf
  by_cases hnil : nonOutlierScoresOf l = []
  · have hnil' : nonOutlierScoresOf l' = [] := by
      have hp := (nonOutlierScores_perm h).symm
      rw [hnil] at hp
      exact hp.eq_nil
    rw [if_neg (not_not_intro hnil), if_neg (not_not_intro hnil')]
    exact meanOf_perm h
  · have hnil' : nonOutlierScoresOf l' ≠ [] := by
      intro hc
      apply hnil
      have hp := nonOutlierScores_perm h
      rw [hc] at hp
      exact hp.eq_nil
    rw [if_pos hnil, if_pos hnil']
    exact listMedian_perm (nonOutlierScores_perm h)

/-- C6 (amended): the consensus computation is invariant under permutation
of the input list in every field — variance, std-dev, agreement,
reliability, consensus score — except that the `outlier_models` list may be
reordered: it is equal as a multiset (a permutation), not necessarily as a
list, because the source appends outliers in input order. -/
theorem consensus_metrics_perm_invariant_up_to_outlier_order
    (l l' : List ModelResult) (h : l.Perm l') :
    (calculateConsensusMetrics l).score_variance =
      (calculateConsensusMetrics l').score_variance ∧
    (calculateConsensusMetrics l).score_std_dev =
      (calculateConsensusMetrics l').score_std_dev ∧
    (calculateConsensusMetrics l).agreement_percentage =
      (calculateConsensusMetrics l').agreement_percentage ∧
    (calculateConsensusMetrics l).reliability_level =
      (calculateConsensusMetrics l').reliability_level ∧
    (calculateConsensusMetrics l).outlier_models.Perm
      (calculateConsensusMetrics l').outlier_models ∧
    (calculateConsensusMetrics l).consensus_score =
      (calculateConsensusMetrics l').consensus_score := by
  by_cases hlen : (qualifiedResults l).length < minModelsForConsensus
  · have hlen' : (qualifiedResults l').length < minModelsForConsensus := by
      rw [← (qualified_perm h).length_eq]
      exact hlen
    have e : calculateConsensusMetrics l = calculateConsensusMetrics l' := by
      unfold calculateConsensusMetrics
      rw [if_pos hlen, if_pos hlen']
    rw [e]
    exact ⟨rfl, rfl, rfl, rfl, List.Perm.refl _, rfl⟩
  · have hlen' : ¬ (qualifiedResults l').length < minModelsForConsensus := by
      rw [← (qualified_perm h).length_eq]
      exact hlen
    simp only [calculateConsensusMetrics, if_neg hlen, if_neg hlen']
    refine ⟨varianceOf_perm h, stdDevOf_perm h, agreementOf_perm h,
      reliabilityOf_perm h, outliersOf_perm h, ?_⟩
    rw [consensusScoreOf_perm h]

/-- Closed instance of the amended C6 theorem at a two-element swap. -/
theorem consensus_metrics_perm_invariant_up_to_outlier_order_witness :
    (calculateConsensusMetrics [⟨"a", "", some 1, none, true⟩,
        ⟨"b", "", some 3, none, true⟩]).score_variance =
      (calculateConsensusMetrics [⟨"b", "", some 3, none, true⟩,
        ⟨"a", "", some 1, none, true⟩]).score_variance ∧
    (calculateConsensusMetrics [⟨"a", "", some 1, none, true⟩,
        ⟨"b", "", some 3, none, true⟩]).score_std_dev =
      (calculateConsensusMetrics [⟨"b", "", some 3, none, true⟩,
        ⟨"a", "", some 1, none, true⟩]).score_std_dev ∧
    (calculateConsensusMetrics [⟨"a", "", some 1, none, true⟩,
        ⟨"b", "", some 3, none, true⟩]).agreement_percentage =
      (calculateConsensusMetrics [⟨"b", "", some 3, none, true⟩,
        ⟨"a", "", some 1, none, true⟩]).agreement_percentage ∧
    (calculateConsensusMetrics [⟨"a", "", some 1, none, true⟩,
        ⟨"b", "", some 3, none, true⟩]).reliability_level =
      (calculateConsensusMetrics [⟨"b", "", some 3, none, true⟩,
        ⟨"a", "", some 1, none, true⟩]).reliability_level ∧
    (calculateConsensusMetrics [⟨"a", "", some 1, none, true⟩,
        ⟨"b", "", some 3, none, true⟩]).outlier_models.Perm
      (calculateConsensusMetrics [⟨"b", "", some 3, none, true⟩,
        ⟨"a", "", some 1, none, true⟩]).outlier_models ∧
    (calculateConsensusMetrics [⟨"a", "", some 1, none, true⟩,
        ⟨"b", "", some 3, none, true⟩]).consensus_score =
      (calculateConsensusMetrics [⟨"b", "", some 3, none, true⟩,
        ⟨"a", "", some 1, none, true⟩]).consensus_score :=
  consensus_metrics_perm_invariant_up_to_outlier_order _ _
    (List.Perm.swap _ _ _)

/-! ### Order dependence of the outlier list (C6 counterexample)

Ten successful results with scores 600, 400 and eight 500s: mean 500, sample
variance 20000/9, std-dev √(20000/9) ≈ 47.1, so both the 600 and the 400
have z-score ≈ 2.12 > 2 and are flagged as outliers — in input order. -/

def outlierHi : ModelResult := ⟨"m1", "", some 600, none, true⟩

def outlierLo : ModelResult := ⟨"m2", "", some 400, none, true⟩

def midResults : List ModelResult :=
  [⟨"m3", "", some 500, none, true⟩, ⟨"m4", "", some 500, none, true⟩,
   ⟨"m5", "", some 500, none, true⟩, ⟨"m6", "", some 500, none, true⟩,
   ⟨"m7", "", some 500, none, true⟩, ⟨"m8", "", some 500, none, true⟩,
   ⟨"m9", "", some 500, none, true⟩, ⟨"m10", "", some 500, none, true⟩]

def swapListA : List ModelResult := outlierHi :: outlierLo :: midResults

def swapListB : List ModelResult := outlierLo :: outlierHi :: midResults

theorem swapLists_perm : swapListA.Perm swapListB := List.Perm.swap _ _ _

theorem qualified_swapListA :
    qualifiedResults swapListA =
      [("m1", (600 : ℝ)), ("m2", 400), ("m3", 500), ("m4", 500), ("m5", 500),
       ("m6", 500), ("m7", 500), ("m8", 500), ("m9", 500), ("m10", 500)] := rfl

theorem qualified_swapListB :
    qualifiedResults swapListB =
      [("m2", (400 : ℝ)), ("m1", 600), ("m3", 500), ("m4", 500), ("m5", 500),
       ("m6", 500), ("m7", 500), ("m8", 500), ("m9", 500), ("m10", 500)] := rfl

theorem scores_swapListA :
    scoresOf swapListA =
      [(600 : ℝ), 400, 500, 500, 500, 500, 500, 500, 500, 500] := rfl

theorem listMean_swapA :
    listMean [(600 : ℝ), 400, 500, 500, 500, 500, 500, 500, 500, 500] = 500 := by
  unfold listMean
  norm_num

theorem mean_swapListA : meanOf swapListA = 500 := by
  unfold meanOf
  rw [scores_swapListA]
  exact listMean_swapA

theorem variance_swapA_lit :
    sampleVariance [(600 : ℝ), 400, 500, 500, 500, 500, 500, 500, 500, 500] =
      20000 / 9 := by
  unfold sampleVariance
  rw [listMean_swapA]
  norm_num

theorem std_swapListA : stdDevOf swapListA = Real.sqrt (20000 / 9) := by
  unfold stdDevOf
  rw [scores_swapListA, variance_swapA_lit, if_pos (by norm_num)]

theorem std_swapListA_pos : 0 < stdDevOf swapListA := by
  rw [std_swapListA]
  exact Real.sqrt_pos.mpr (by norm_num)

theorem std_swapListA_lt : stdDevOf swapListA < 50 := by
  rw [std_swapListA]
  exact (Real.sqrt_lt' (by norm_num)).mpr (by norm_num)

theorem outlier_pred_hiA :
    outlierThreshold < |(600 : ℝ) - 500| / stdDevOf swapListA := by
  unfold outlierThreshold
  rw [show |(600 : ℝ) - 500| = 100 by norm_num, lt_div_iff₀ std_swapListA_pos]
  linarith [std_swapListA_lt]

theorem outlier_pred_loA :
    outlierThreshold < |(400 : ℝ) - 500| / stdDevOf swapListA := by
  unfold outlierThreshold
  rw [show |(400 : ℝ) - 500| = 100 by norm_num, lt_div_iff₀ std_swapListA_pos]
  linarith [std_swapListA_lt]

theorem outlier_pred_midA :
    ¬ outlierThreshold < |(500 : ℝ) - 500| / stdDevOf swapListA := by
  unfold outlierThreshold
  rw [show |(500 : ℝ) - 500| = 0 by norm_num, zero_div]
  norm_num

theorem outliers_swapListA : outliersOf swapListA = ["m1", "m2"] := by
  unfold outliersOf
  rw [if_pos std_swapListA_pos, qualified_swapListA]
  simp only [mean_swapListA]
  simp only [List.filter_cons, List.filter_nil, decide_eq_true_eq,
    outlier_pred_hiA, outlier_pred_loA, outlier_pred_midA, if_true, if_false,
    List.map_cons, List.map_nil]

theorem mean_swapListB : meanOf swapListB = 500 := by
  rw [← meanOf_perm swapLists_perm]
  exact mean_swapListA

theorem std_swapListB_pos : 0 < stdDevOf swapListB := by
  rw [← stdDevOf_perm swapLists_perm]
  exact std_swapListA_pos

theorem outlier_pred_hiB :
    outlierThreshold < |(600 : ℝ) - 500| / stdDevOf swapListB := by
  rw [← stdDevOf_perm swapLists_perm]
  exact outlier_pred_hiA

theorem outlier_pred_loB :
    outlierThreshold < |(400 : ℝ) - 500| / stdDevOf swapListB := by
  rw [← stdDevOf_perm swapLists_perm]
  exact outlier_pred_loA

theorem outlier_pred_midB :
    ¬ outlierThreshold < |(500 : ℝ) - 500| / stdDevOf swapListB := by
  rw [← stdDevOf_perm swapLists_perm]
  exact outlier_pred_midA

theorem outliers_swapListB : outliersOf swapListB = ["m2", "m1"] := by
  unfold outliersOf
  rw [if_pos std_swapListB_pos, qualified_swapListB]
  simp only [mean_swapListB]
  simp only [List.filter_cons, List.filter_nil, decide_eq_true_eq,
    outlier_pred_hiB, outlier_pred_loB, outlier_pred_midB, if_true, if_false,
    List.map_cons, List.map_nil]

/-- C6 counterexample: two permuted lists of ten successful results on which
the consensus computation returns different `ConsensusMetrics`: the two
outliers are listed in input order, `["m1", "m2"]` versus `["m2", "m1"]`,
so the metrics are not identical as the claim requires. -/
theorem consensus_order_dependence_counterexample :
    swapListA.Perm swapListB ∧
    (calculateConsensusMetrics swapListA).outlier_models = ["m1", "m2"] ∧
    (calculateConsensusMetrics swapListB).outlier_models = ["m2", "m1"] ∧
    calculateConsensusMetrics swapListA ≠ calculateConsensusMetrics swapListB := by
  have hA : (calculateConsensusMetrics swapListA).outlier_models = ["m1", "m2"] := by
    rw [calculateConsensusMetrics,
      if_neg (by rw [qualified_swapListA]; simp [minModelsForConsensus])]
    exact outliers_swapListA
  have hB : (calculateConsensusMetrics swapListB).outlier_models = ["m2", "m1"] := by
    rw [calculateConsensusMetrics,
      if_neg (by rw [qualified_swapListB]; simp [minModelsForConsensus])]
    exact outliers_swapListB
  refine ⟨swapLists_perm, hA, hB, ?_⟩
  intro heq
  have hfield := congrArg ConsensusMetrics.outlier_models heq
  rw [hA, hB] at hfield
  exact absurd hfield (by decide)

end Scribo
